import Mathlib

/-!
Verification of the PSFree ROP/JOP chain-building engine.

This development shallowly embeds the chain engine of the repository
(`src/unnamed/part_000`, class `Chain803Base` / `Chain803`, and `src/rop.mjs`,
class `Chain850`) and proves the claimed properties of its construction
primitives, conditional-branch protocol, checkpoint/rollback protocol,
one-shot helpers, gadget-table initialization and run lifecycle.

The base class `ChainBase` lives in `module/chain.mjs`, which is not part of
the source tree given here; every definition taken from it (rather than from
`src/unnamed/part_000` or `src/rop.mjs`) carries a doc comment starting with
`Modelled from the spec:` and is faithful to the specification's words.

Machine integers are modelled as `Nat` reduced modulo `2 ^ 64` where the
JavaScript `Int` 64-bit type wraps.  The fake-stack buffer is modelled as a
write log `List (Nat × Nat)` of (byte offset, 64-bit value) pairs, most recent
write first; reading an offset returns the most recent write there (the buffer
is zero-initialized).
-/

/-- 2^64, the modulus of the 64-bit `Int` type of `module/int64.mjs`. -/
def U64 : Nat := 2 ^ 64

/-- Reduce a natural number into the 64-bit range (JS `Int` wrap-around). -/
def natU64 (v : Nat) : Nat := v % U64

/-- Reduce an integer into the 64-bit range (JS `new Int(v)` on a possibly
negative JS number). -/
def toU64 (v : Int) : Nat := (v % (U64 : Int)).toNat

/-- Read the most recent 64-bit write at byte offset `d` from a write log
(the underlying buffer is zero-initialized, so a miss reads 0). -/
def lookupLog : List (Nat × Nat) → Nat → Nat
  | [], _ => 0
  | (o, v) :: rest, d => if o = d then v else lookupLog rest d

/-- A JS `Map` from gadget-identifier strings to resolved addresses,
modelled as an association list, most recent `set` first. -/
def GadgetMap : Type := List (String × Nat)

/-- `Map.set`: the new binding shadows any earlier one. -/
def mapSet (m : GadgetMap) (k : String) (v : Nat) : GadgetMap := (k, v) :: m

/-- `Map.get`: first (most recent) binding wins. -/
def mapGet (m : GadgetMap) (k : String) : Option Nat :=
  match m with
  | [] => none
  | (k2, v) :: rest => if k2 = k then some v else mapGet rest k

/-- `init_gadget_map(gadget_map, offset_map, base_addr)` from
`src/unnamed/part_000` lines 219-223 (identical in `src/rop.mjs` lines
170-174): for each `(insn, offset)` of the offset map, set
`gadget_map[insn] = base_addr.add(offset)` (64-bit address addition). -/
def init_gadget_map (gadget_map : GadgetMap) (offset_map : List (String × Nat))
    (base_addr : Nat) : GadgetMap :=
  offset_map.foldl (fun gm p => mapSet gm p.1 (natU64 (base_addr + p.2))) gadget_map

/- The JOP gadget identifier strings of `src/unnamed/part_000`. -/

def jop1 : String :=
  "\nmov rdi, qword ptr [rdi + 0x30]\nmov rax, qword ptr [rdi]\njmp qword ptr [rax + 8]\n"

def jop2 : String :=
  "\npush rbp\nmov rbp, rsp\nmov rax, qword ptr [rdi]\ncall qword ptr [rax + 0x30]\n"

def jop3 : String :=
  "\nmov rdx, qword ptr [rax + 0x18]\nmov rax, qword ptr [rdi]\ncall qword ptr [rax + 0x10]\n"

def jop4 : String := "\npush rdx\njmp qword ptr [rax]\n"

def jop5 : String := "pop rsp; ret"

def ta_jop1 : String :=
  "\nmov rdi, qword ptr [rsi + 0x18]\nmov rax, qword ptr [rdi]\ncall qword ptr [rax + 0xb8]\n"

def ta_jop2 : String := "\npop rsi\njmp qword ptr [rax + 0x60]\n"

def ta_jop3 : String :=
  "\nmov rdi, qword ptr [rax + 8]\nmov rax, qword ptr [rdi]\njmp qword ptr [rax + 0x68]\n"

/-- `webkit_gadget_offsets` from `src/unnamed/part_000` lines 134-179. -/
def webkit_gadget_offsets : List (String × Nat) := [
  ("pop rax; ret", 0x000000000001ac7b),
  ("pop rbx; ret", 0x000000000000c46d),
  ("pop rcx; ret", 0x000000000001ac5f),
  ("pop rdx; ret", 0x0000000000282ea2),
  ("pop rbp; ret", 0x00000000000000b6),
  ("pop rsi; ret", 0x0000000000050878),
  ("pop rdi; ret", 0x0000000000091afa),
  ("pop rsp; ret", 0x0000000000073c2b),
  ("pop r8; ret", 0x000000000003b4b3),
  ("pop r9; ret", 0x00000000010f372f),
  ("pop r10; ret", 0x0000000000b1a721),
  ("pop r11; ret", 0x0000000000eaba69),
  ("pop r12; ret", 0x00000000004abe58),
  ("pop r13; ret", 0x00000000019a0d8b),
  ("pop r14; ret", 0x0000000000050877),
  ("pop r15; ret", 0x0000000000091af9),
  ("ret", 0x0000000000000032),
  ("leave; ret", 0x000000000001ba53),
  ("neg rax; and rax, rcx; ret", 0x00000000014c5ab4),
  ("adc esi, esi; ret", 0x0000000000bcfa29),
  ("add rax, rdx; ret", 0x0000000000d26d4c),
  ("push rsp; jmp qword ptr [rax]", 0x0000000001e3cb0a),
  ("add rcx, rsi; and rdx, rcx; or rax, rdx; ret", 0x00000000015a74c6),
  ("pop rdi; jmp qword ptr [rax + 0x1d]", 0x00000000021f4f09),
  ("mov qword ptr [rdi], rsi; ret", 0x000000000018f010),
  ("mov rax, qword ptr [rax]; ret", 0x000000000003734c),
  ("mov qword ptr [rdi], rax; ret", 0x000000000001433b),
  ("mov dword ptr [rdi], eax; ret", 0x0000000000008e7f),
  ("mov rdx, rcx; ret", 0x0000000000f2c94d),
  (jop1, 0x000000000174d3e0),
  (jop2, 0x00000000011c9df0),
  (jop3, 0x0000000000481769),
  (jop4, 0x00000000021f10fd),
  (ta_jop1, 0x0000000000c42d34),
  (ta_jop2, 0x00000000021f930e),
  (ta_jop3, 0x0000000001236532)]

/-- `libc_gadget_offsets` from `src/unnamed/part_000` lines 181-187
(`offset_libc_setjmp = 0x25904`, `offset_libc_longjmp = 0x29C38`). -/
def libc_gadget_offsets : List (String × Nat) := [
  ("neg rax; ret", 0x00000000000d3df3),
  ("mov rdx, rax; xor eax, eax; shl rdx, cl; ret", 0x00000000000cef39),
  ("mov qword ptr [rsi], rcx; ret", 0x00000000000cf8e2),
  ("setjmp", 0x25904),
  ("longjmp", 0x29C38)]

/-- The gadget table used by the 8.03 chain, exactly as built by `init()` in
`src/unnamed/part_000` lines 531-540: webkit offsets resolved against the
webkit base, then libc offsets resolved against the libc base, into one map. -/
def gadgets803 (wk libc : Nat) : GadgetMap :=
  init_gadget_map (init_gadget_map [] webkit_gadget_offsets wk) libc_gadget_offsets libc

/-- The build-time error kinds of the engine (spec section 7). -/
inductive ChainError where
  | missingGadget
  | argumentOverflow
  | alreadySaved
  | notSaved
  | invalidBranchState
  | notEmpty
  | staleChain
  | emptyChain
deriving DecidableEq

/-- The state of one chain engine instance: the fake-stack write log and
cursor, the transient branch context (`is_branch_ctx`, `branch_position`,
`delta_slot`, `rsp_slot`, `rsp_position`, all cleared by
`_clean_branch_ctx()`), the save/restore flag `is_saved`, the staleness flag
of the run lifecycle, and the addresses fixed at construction time (fake-stack
base, scratch flag buffer, `jmp_target` buffer, `jmp_buf`, return-value
scratch slot). -/
structure Chain where
  stack : List (Nat × Nat)
  position : Nat
  is_branch_ctx : Bool
  branch_position : Option Nat
  delta_slot : Option Nat
  rsp_slot : Option Nat
  rsp_position : Option Nat
  is_saved : Bool
  stale : Bool
  stack_addr : Nat
  flag_addr : Nat
  jmp_target_addr : Nat
  jmp_buf_p : Nat
  retval_addr : Nat
deriving DecidableEq

/-- Read the 64-bit value currently held at byte offset `d` of the chain's
fake-stack buffer. -/
def read64 (s : Chain) (d : Nat) : Nat := lookupLog s.stack d

/-- `rw.write64(this.stack, off, v)`: patch the buffer at a recorded offset
(out-of-band of the cursor). -/
def write64 (s : Chain) (off v : Nat) : Chain :=
  { s with stack := (off, natU64 v) :: s.stack }

/-- Modelled from the spec: `ChainBase.push_value` of `module/chain.mjs` (not
under `src/`): appends the raw little-endian 8-byte encoding of the value at
the cursor and advances the cursor by one pointer width, 8 bytes (spec
section 4.2, construction primitives). -/
def ChainBase.push_value (s : Chain) (v : Nat) : Chain :=
  { s with stack := (s.position, natU64 v) :: s.stack, position := s.position + 8 }

/-- `Chain803Base.push_value` from `src/unnamed/part_000` lines 255-261:
delegates to the base append, and while a branch context is active also
advances `branch_position` by 8. -/
def push_value (s : Chain) (v : Nat) : Chain :=
  let t := ChainBase.push_value s v
  if t.is_branch_ctx then
    { t with branch_position := some (t.branch_position.getD 0 + 8) }
  else t

/-- Modelled from the spec: `push_constant` of `module/chain.mjs` (not under
`src/`): appends the raw 8-byte encoding of an integer (64-bit wrap of a
possibly negative constant). -/
def push_constant (s : Chain) (v : Int) : Chain := push_value s (toU64 v)

/-- Modelled from the spec: `ChainBase.get_gadget` of `module/chain.mjs` (not
under `src/`): looking up an identifier absent from the table fails at
chain-build time with kind `MissingGadget` (spec section 4.1). -/
def get_gadget (G : GadgetMap) (name : String) : Except ChainError Nat :=
  match mapGet G name with
  | some a => .ok a
  | none => .error .missingGadget

/-- Modelled from the spec: `push_gadget(id)` of `module/chain.mjs` (not under
`src/`): appends `GadgetTable[id]`; fails `MissingGadget` if unresolved. -/
def push_gadget (G : GadgetMap) (s : Chain) (name : String) : Except ChainError Chain := do
  let a ← get_gadget G name
  return push_value s a

/-- Modelled from the spec: the x86-64 integer-argument registers loaded, in
order, by `push_call`'s argument-loading gadgets (spec section 4.2). -/
def arg_gadgets : List String :=
  ["pop rdi; ret", "pop rsi; ret", "pop rdx; ret", "pop rcx; ret", "pop r8; ret", "pop r9; ret"]

/-- Modelled from the spec: the argument-loading loop of `push_call`: for each
argument, in order, emit the gadget that loads the next integer-argument
register followed by the literal argument. -/
def push_args (G : GadgetMap) (s : Chain) : List (String × Nat) → Except ChainError Chain
  | [] => .ok s
  | (g, a) :: rest => do
    let s ← push_gadget G s g
    let s := push_value s a
    push_args G s rest

/-- Modelled from the spec: `push_call(target, args...)` of `module/chain.mjs`
(not under `src/`): more than six integer arguments fails
`ArgumentOverflow`; otherwise, for each argument in order, emits the
next-argument-register load gadget followed by the literal argument, then
appends `target` (spec section 4.2). -/
def push_call (G : GadgetMap) (s : Chain) (target : Nat) (args : List Nat) :
    Except ChainError Chain :=
  if args.length > 6 then .error .argumentOverflow
  else do
    let s ← push_args G s (arg_gadgets.zip args)
    return push_value s target

/-- A syscall table entry: name mapped to (syscall number, address of the
syscall-trampoline gadget). -/
def SyscallMap : Type := List (String × Nat × Nat)

/-- Modelled from the spec: SyscallTable lookup; same contract as the gadget
table, keyed by syscall name (spec section 4.1). -/
def sys_lookup (sys : SyscallMap) (name : String) : Option (Nat × Nat) :=
  match sys with
  | [] => none
  | (k, e) :: rest => if k = name then some e else sys_lookup rest name

/-- Modelled from the spec: `push_syscall(name, args...)` of
`module/chain.mjs` (not under `src/`): identical argument-loading convention
as `push_call`, additionally loads the syscall number (via SyscallTable) into
the designated register (`rax`), then appends the syscall-trampoline gadget
(spec section 4.2).  An unknown name fails at build time with kind
`MissingGadget` (spec section 4.1). -/
def push_syscall (G : GadgetMap) (sys : SyscallMap) (s : Chain) (name : String)
    (args : List Nat) : Except ChainError Chain :=
  match sys_lookup sys name with
  | none => .error .missingGadget
  | some (num, addr) => do
    let s ← push_gadget G s "pop rax; ret"
    let s := push_value s num
    push_call G s addr args

/-- `Chain803Base.push_end` from `src/unnamed/part_000` lines 245-247:
appends the `leave; ret` epilogue. -/
def push_end (G : GadgetMap) (s : Chain) : Except ChainError Chain :=
  push_gadget G s "leave; ret"

/-- `Chain803Base.push_get_retval` from `src/unnamed/part_000` lines 441-445:
copies `rax` into the chain's return-value scratch slot. -/
def push_get_retval (G : GadgetMap) (s : Chain) : Except ChainError Chain := do
  let s ← push_gadget G s "pop rdi; ret"
  let s := push_value s s.retval_addr
  push_gadget G s "mov qword ptr [rdi], rax; ret"

/-- `Chain803Base._clean_branch_ctx` from `src/unnamed/part_000` lines
263-269. -/
def clean_branch_ctx (s : Chain) : Chain :=
  { s with is_branch_ctx := false, branch_position := none, delta_slot := none,
           rsp_slot := none, rsp_position := none }

/-- Modelled from the spec: `ChainBase.clean` of `module/chain.mjs` (not under
`src/`): resets the cursor, the buffer contents and the staleness flag to
allow reuse; it never frees the fake-stack buffer and the buffer's base
address never changes (spec sections 3 and 4.2). -/
def ChainBase.clean (s : Chain) : Chain :=
  { s with stack := [], position := 0, stale := false }

/-- `Chain803Base.clean` from `src/unnamed/part_000` lines 271-275:
`super.clean()`, then clears the branch context and the save flag. -/
def clean (s : Chain) : Chain :=
  { clean_branch_ctx (ChainBase.clean s) with is_saved := false }

/-- `Chain803Base.start_branch` from `src/unnamed/part_000` lines 286-386.
Fails `InvalidBranchState` while already branching; otherwise emits the
branch scaffold, records the delta patch-back slot (holding a dummy 0) and
the rsp patch-back slot, starts the `branch_position` byte counter mid-way,
and finally patches the rsp slot with the byte count reached at the end of
the scaffold (`rsp_position`). -/
def start_branch (G : GadgetMap) (s : Chain) : Except ChainError Chain :=
  if s.is_branch_ctx then .error .invalidBranchState
  else do
    let s ← push_gadget G s "pop rcx; ret"
    let s := push_constant s (-1)
    let s ← push_gadget G s "neg rax; ret"
    let s ← push_gadget G s "pop rsi; ret"
    let s := push_constant s 0
    let s ← push_gadget G s "adc esi, esi; ret"
    let s ← push_gadget G s "pop rdi; ret"
    let s := push_value s s.flag_addr
    let s ← push_gadget G s "mov qword ptr [rdi], rsi; ret"
    let s ← push_gadget G s "pop rax; ret"
    let s := push_value s s.flag_addr
    let s ← push_gadget G s "mov rax, qword ptr [rax]; ret"
    let s ← push_gadget G s "pop rcx; ret"
    let s := { s with delta_slot := some s.position }
    let s := push_constant s 0
    let s ← push_gadget G s "neg rax; and rax, rcx; ret"
    let s ← push_gadget G s "pop rdi; ret"
    let s := push_value s s.flag_addr
    let s ← push_gadget G s "mov qword ptr [rdi], rax; ret"
    let s ← push_gadget G s "pop rcx; ret"
    let s := { s with rsp_slot := some s.position }
    let s := push_constant s 0
    let s ← push_gadget G s "pop rsi; ret"
    let s := push_value s (s.stack_addr + (s.position + 8))
    let s := { s with branch_position := some 0, is_branch_ctx := true }
    let s ← push_gadget G s "add rcx, rsi; and rdx, rcx; or rax, rdx; ret"
    let s ← push_gadget G s "mov rdx, rcx; ret"
    let s ← push_gadget G s "pop rax; ret"
    let s := push_value s s.flag_addr
    let s ← push_gadget G s "mov rax, qword ptr [rax]; ret"
    let s ← push_gadget G s "add rax, rdx; ret"
    let s ← push_gadget G s "pop rdi; ret"
    let s := push_value s s.flag_addr
    let s ← push_gadget G s "mov qword ptr [rdi], rax; ret"
    let s ← push_gadget G s "pop rcx; ret"
    let s := push_constant s 0
    let s ← push_gadget G s "mov rdx, rax; xor eax, eax; shl rdx, cl; ret"
    let s ← push_gadget G s "pop rax; ret"
    let s := push_value s s.jmp_target_addr
    let s ← push_gadget G s "pop rdi; jmp qword ptr [rax + 0x1d]"
    let s := push_constant s 0
    let s := { s with rsp_position := s.branch_position }
    let s := write64 s (s.rsp_slot.getD 0) (s.rsp_position.getD 0)
    return s

/-- `Chain803Base.end_branch` from `src/unnamed/part_000` lines 388-396.
Fails `InvalidBranchState` while not branching; otherwise patches the delta
slot with `branch_position - rsp_position` and clears the branch context. -/
def end_branch (s : Chain) : Except ChainError Chain :=
  if !s.is_branch_ctx then .error .invalidBranchState
  else
    let delta : Int := (s.branch_position.getD 0 : Int) - (s.rsp_position.getD 0 : Int)
    let s := write64 s (s.delta_slot.getD 0) (toU64 delta)
    .ok (clean_branch_ctx s)

/-- `Chain803Base.push_save` from `src/unnamed/part_000` lines 398-405.
Fails `AlreadySaved` if a prior save has no matching restore; otherwise
emits a call to `setjmp(jmp_buf)` and marks the checkpoint valid. -/
def push_save (G : GadgetMap) (s : Chain) : Except ChainError Chain :=
  if s.is_saved then .error .alreadySaved
  else do
    let tgt ← get_gadget G "setjmp"
    let s ← push_call G s tgt [s.jmp_buf_p]
    return { s with is_saved := true }

/-- `Chain803Base.push_restore` from `src/unnamed/part_000` lines 409-439.
Without `force` and without a prior save fails `NotSaved`; otherwise splices
code overwriting `jmp_buf.rsp` (patched at the end with the fake-stack
position right after this restore block) and `jmp_buf.return_address`, emits
a call to `longjmp(jmp_buf)`, pads, and invalidates the checkpoint. -/
def push_restore (G : GadgetMap) (s : Chain) (is_force : Bool) : Except ChainError Chain :=
  if !s.is_saved && !is_force then .error .notSaved
  else do
    let s ← push_gadget G s "pop rax; ret"
    let rsp_slot := s.position
    let s := push_constant s 0
    let s ← push_gadget G s "pop rdi; ret"
    let s := push_value s (s.jmp_buf_p + 0x38)
    let s ← push_gadget G s "mov qword ptr [rdi], rax; ret"
    let s ← push_gadget G s "pop rax; ret"
    let sret ← get_gadget G "ret"
    let s := push_value s sret
    let s ← push_gadget G s "pop rdi; ret"
    let s := push_value s (s.jmp_buf_p + 0x80)
    let s ← push_gadget G s "mov qword ptr [rdi], rax; ret"
    let tlj ← get_gadget G "longjmp"
    let s ← push_call G s tlj [s.jmp_buf_p]
    let s := push_constant s 0
    let s := push_constant s 0
    let target_rsp := s.stack_addr + s.position
    let s := write64 s rsp_slot target_rsp
    return { s with is_saved := false }

/-- Modelled from the spec: `check_stale` of `module/chain.mjs` (not under
`src/`): invoking `run()` on a stale chain fails fast (spec section 4.2,
state machine). -/
def check_stale (s : Chain) : Except ChainError Unit :=
  if s.stale then .error .staleChain else .ok ()

/-- Modelled from the spec: `check_is_empty` of `module/chain.mjs` (not under
`src/`): `run()` requires the chain not be empty (spec section 4.2). -/
def check_is_empty (s : Chain) : Except ChainError Unit :=
  if s.position = 0 then .error .emptyChain else .ok ()

/-- `Chain803Base.check_is_branching` from `src/unnamed/part_000` lines
249-253: a chain that is still branching cannot run. -/
def check_is_branching (s : Chain) : Except ChainError Unit :=
  if s.is_branch_ctx then .error .invalidBranchState else .ok ()

/-- The observable effect of one `run()` on the hijacked dispatch slot:
the value written into the slot to trigger the hijack, and the value the
slot holds after `run()` returns. -/
structure RunEffect where
  hijacked_slot : Nat
  final_slot : Nat
deriving DecidableEq

/-- `Chain803.run` from `src/unnamed/part_000` lines 516-527: guard checks
(stale, empty, branching), then overwrite the textarea vtable pointer with
the fake vtable (`V`), trigger the `scrollLeft` getter (the chain executes
and returns through the epilogue), and restore the vtable pointer to the
constructor-captured original (`O`).  The resulting staleness of the chain
is modelled from the spec state machine (`Executing → Stale`), since that
part of the lifecycle lives in `module/chain.mjs`, not under `src/`. -/
def Chain803.run (V O : Nat) (s : Chain) : Except ChainError (Chain × RunEffect) := do
  let _ ← check_stale s
  let _ ← check_is_empty s
  let _ ← check_is_branching s
  return ({ s with stale := true }, ⟨V, O⟩)

/-- `Chain850.run` from `src/rop.mjs` lines 257-264: the same guard checks,
then trigger via calling the cloned built-in function.  `run()` itself never
writes the hijacked `m_function` slot: `slot` is its value going in and it is
unchanged going out.  Staleness modelled from the spec state machine as for
`Chain803.run`. -/
def Chain850.run (slot : Nat) (s : Chain) : Except ChainError (Chain × RunEffect) := do
  let _ ← check_stale s
  let _ ← check_is_empty s
  let _ ← check_is_branching s
  return ({ s with stale := true }, ⟨slot, slot⟩)

/-- `Chain803Base.call` from `src/unnamed/part_000` lines 447-456: requires
an empty chain (`NotEmpty` otherwise), then `push_call`, `push_get_retval`,
`push_end`, `run`, `clean`. -/
def call (G : GadgetMap) (V O : Nat) (s : Chain) (target : Nat) (args : List Nat) :
    Except ChainError (Chain × RunEffect) :=
  if s.position ≠ 0 then .error .notEmpty
  else do
    let s ← push_call G s target args
    let s ← push_get_retval G s
    let s ← push_end G s
    let (s, eff) ← Chain803.run V O s
    return (clean s, eff)

/-- `Chain803Base.syscall` from `src/unnamed/part_000` lines 458-467: requires
an empty chain (`NotEmpty` otherwise), then `push_syscall`,
`push_get_retval`, `push_end`, `run`, `clean`. -/
def syscall (G : GadgetMap) (sys : SyscallMap) (V O : Nat) (s : Chain) (name : String)
    (args : List Nat) : Except ChainError (Chain × RunEffect) :=
  if s.position ≠ 0 then .error .notEmpty
  else do
    let s ← push_syscall G sys s name args
    let s ← push_get_retval G s
    let s ← push_end G s
    let (s, eff) ← Chain803.run V O s
    return (clean s, eff)

/-- The 8.50 JOP gadget identifiers from `src/rop.mjs` lines 56-77 (`jop4`
differs from the 8.03 one by an extra `mov edi`). -/
def jop4_850 : String := "\npush rdx\nmov edi, 0xac9784fe\njmp qword ptr [rax]\n"

/-- `Chain850`'s constructor from `src/rop.mjs` lines 226-255, restricted to
its effect on the hijacked slot: it resolves the JOP gadgets (each lookup can
fail `MissingGadget`), builds the springboard buffers, and overwrites
`JSC::NativeExecutable::m_function` (offset 0x38 of the cloned executable)
with the `jop1` gadget address.  The returned `Nat` is the slot's value after
construction; the slot's original value (the cloned `eval` native pointer) is
overwritten here, at construction time, not inside `run()`; `_orig` is the
value the slot held before construction (the cloned `eval` pointer) and does
not influence the result, precisely because the constructor overwrites it
unconditionally and nothing ever writes it back. -/
def construct850 (G : GadgetMap) (s : Chain) (_orig : Nat) : Except ChainError (Chain × Nat) := do
  let _ ← get_gadget G jop2
  let _ ← get_gadget G jop3
  let _ ← get_gadget G jop4_850
  let _ ← get_gadget G jop5
  let g1 ← get_gadget G jop1
  return (s, g1)

/-- A user-issued construction primitive, for quantifying over arbitrary push
sequences issued between `start_branch()` and `end_branch()`. -/
inductive PushOp where
  | value (v : Nat)
  | constant (v : Int)
  | gadget (name : String)
deriving DecidableEq

/-- Apply one construction primitive. -/
def apply_push (G : GadgetMap) (s : Chain) : PushOp → Except ChainError Chain
  | .value v => .ok (push_value s v)
  | .constant v => .ok (push_constant s v)
  | .gadget n => push_gadget G s n

/-- Apply a sequence of construction primitives, left to right. -/
def apply_pushes (G : GadgetMap) (s : Chain) : List PushOp → Except ChainError Chain
  | [] => .ok s
  | op :: rest => do
    let s ← apply_push G s op
    apply_pushes G s rest

/-- The well-formedness invariant of the run lifecycle (spec section 4.2
state machine): an empty chain (`position = 0`, state `Empty`) is neither
stale nor mid-branch.  Every reachable chain state satisfies it: a fresh
chain starts empty and non-stale, each push makes the position nonzero,
`run()` requires a nonzero position which it preserves, and `clean()` resets
all three fields together. -/
def WF (s : Chain) : Prop := s.position = 0 → s.stale = false ∧ s.is_branch_ctx = false

instance (s : Chain) : Decidable (WF s) := by unfold WF; infer_instance

/-- A concrete freshly-constructed chain used by the witnesses: empty buffer,
cursor 0, no branch context, no checkpoint, not stale, with arbitrary
concrete buffer addresses. -/
def chain0 : Chain :=
  ⟨[], 0, false, none, none, none, none, false, false, 0x5000, 0x6000, 0x7000, 0x8000, 0x9000⟩

/-- Extract the success value of a chain-building step (witness plumbing). -/
def okOr (x : Except ChainError Chain) (d : Chain) : Chain :=
  match x with
  | .ok a => a
  | .error _ => d

/-- Whether a build step succeeded. -/
def build_ok {α : Type} (x : Except ChainError α) : Bool :=
  match x with
  | .ok _ => true
  | .error _ => false

/-- A concrete branch-construction trace on the configured table with bases
1 and 2: the chain right after `start_branch()` on a fresh chain. -/
def sbW : Chain := okOr (start_branch (gadgets803 1 2) chain0) chain0

/-- The trace of `sbW` continued by one user push. -/
def apW : Chain := okOr (apply_pushes (gadgets803 1 2) sbW [PushOp.constant 7]) chain0

/-- The trace of `apW` closed by `end_branch()`. -/
def ebW : Chain := okOr (end_branch apW) chain0

/-- The trace of `sbW` continued by a different user push (value push). -/
def apW9 : Chain := okOr (apply_pushes (gadgets803 1 2) sbW [PushOp.value 5]) chain0

/-- A small concrete gadget table resolving the five 8.50 JOP gadgets, for
exercising the 8.50 chain model on concrete inputs (the offset map shipped in
`src/rop.mjs` itself is entirely commented out). -/
def G850test : GadgetMap :=
  [(jop1, 0x101), (jop2, 0x102), (jop3, 0x103), (jop4_850, 0x104), (jop5, 0x105)]

/-- The chain after a successful `push_save()` on a fresh concrete chain. -/
def psW : Chain := okOr (push_save (gadgets803 1 2) chain0) chain0

/-- The chain after a successful forced `push_restore(true)` on a fresh
concrete chain. -/
def prW : Chain := okOr (push_restore (gadgets803 1 2) chain0 true) chain0

/-! ## Helper lemmas: `Except` plumbing -/

@[simp] lemma ok_bind {α β : Type} (a : α) (f : α → Except ChainError β) :
    (Except.ok a >>= f : Except ChainError β) = f a := rfl

@[simp] lemma error_bind {α β : Type} (e : ChainError) (f : α → Except ChainError β) :
    ((Except.error e : Except ChainError α) >>= f) = .error e := rfl

@[simp] lemma pure_ok {α : Type} (a : α) : (pure a : Except ChainError α) = .ok a := rfl

lemma bindE {α β : Type} {x : Except ChainError α} {f : α → Except ChainError β} {c : β}
    (h : (x >>= f) = .ok c) : ∃ b, x = .ok b ∧ f b = .ok c := by
  cases x with
  | ok a => exact ⟨a, rfl, h⟩
  | error e => simp at h

/-! ## Helper lemmas: projections of `push_value` -/

@[simp] lemma push_value_position (s : Chain) (v : Nat) :
    (push_value s v).position = s.position + 8 := by
  unfold push_value ChainBase.push_value
  cases h : s.is_branch_ctx <;> simp [h]

@[simp] lemma push_value_stack (s : Chain) (v : Nat) :
    (push_value s v).stack = (s.position, natU64 v) :: s.stack := by
  unfold push_value ChainBase.push_value
  cases h : s.is_branch_ctx <;> simp [h]

@[simp] lemma push_value_is_branch_ctx (s : Chain) (v : Nat) :
    (push_value s v).is_branch_ctx = s.is_branch_ctx := by
  unfold push_value ChainBase.push_value
  cases h : s.is_branch_ctx <;> simp [h]

@[simp] lemma push_value_branch_position (s : Chain) (v : Nat) :
    (push_value s v).branch_position =
      if s.is_branch_ctx then some (s.branch_position.getD 0 + 8) else s.branch_position := by
  unfold push_value ChainBase.push_value
  cases h : s.is_branch_ctx <;> simp [h]

@[simp] lemma push_value_delta_slot (s : Chain) (v : Nat) :
    (push_value s v).delta_slot = s.delta_slot := by
  unfold push_value ChainBase.push_value
  cases h : s.is_branch_ctx <;> simp [h]

@[simp] lemma push_value_rsp_slot (s : Chain) (v : Nat) :
    (push_value s v).rsp_slot = s.rsp_slot := by
  unfold push_value ChainBase.push_value
  cases h : s.is_branch_ctx <;> simp [h]

@[simp] lemma push_value_rsp_position (s : Chain) (v : Nat) :
    (push_value s v).rsp_position = s.rsp_position := by
  unfold push_value ChainBase.push_value
  cases h : s.is_branch_ctx <;> simp [h]

@[simp] lemma push_value_is_saved (s : Chain) (v : Nat) :
    (push_value s v).is_saved = s.is_saved := by
  unfold push_value ChainBase.push_value
  cases h : s.is_branch_ctx <;> simp [h]

@[simp] lemma push_value_stale (s : Chain) (v : Nat) :
    (push_value s v).stale = s.stale := by
  unfold push_value ChainBase.push_value
  cases h : s.is_branch_ctx <;> simp [h]

@[simp] lemma push_value_stack_addr (s : Chain) (v : Nat) :
    (push_value s v).stack_addr = s.stack_addr := by
  unfold push_value ChainBase.push_value
  cases h : s.is_branch_ctx <;> simp [h]

@[simp] lemma push_value_flag_addr (s : Chain) (v : Nat) :
    (push_value s v).flag_addr = s.flag_addr := by
  unfold push_value ChainBase.push_value
  cases h : s.is_branch_ctx <;> simp [h]

@[simp] lemma push_value_jmp_target_addr (s : Chain) (v : Nat) :
    (push_value s v).jmp_target_addr = s.jmp_target_addr := by
  unfold push_value ChainBase.push_value
  cases h : s.is_branch_ctx <;> simp [h]

@[simp] lemma push_value_jmp_buf_p (s : Chain) (v : Nat) :
    (push_value s v).jmp_buf_p = s.jmp_buf_p := by
  unfold push_value ChainBase.push_value
  cases h : s.is_branch_ctx <;> simp [h]

@[simp] lemma push_value_retval_addr (s : Chain) (v : Nat) :
    (push_value s v).retval_addr = s.retval_addr := by
  unfold push_value ChainBase.push_value
  cases h : s.is_branch_ctx <;> simp [h]

lemma lookupLog_cons_ne (o v : Nat) (L : List (Nat × Nat)) (d : Nat) (h : o ≠ d) :
    lookupLog ((o, v) :: L) d = lookupLog L d := by
  simp [lookupLog, h]

lemma read64_push_value_lt (s : Chain) (v d : Nat) (h : d < s.position) :
    read64 (push_value s v) d = read64 s d := by
  unfold read64
  rw [push_value_stack, lookupLog_cons_ne _ _ _ _ (by omega)]

@[simp] lemma read64_write64_self (s : Chain) (off v : Nat) :
    read64 (write64 s off v) off = natU64 v := by
  simp [read64, write64, lookupLog]

@[simp] lemma read64_clean_branch_ctx (s : Chain) (d : Nat) :
    read64 (clean_branch_ctx s) d = read64 s d := rfl

/-! ## Helper lemmas: concrete gadget lookups in the configured 8.03 table
(each is `rfl`: pure evaluation of the association-list search built by
`init_gadget_map` from `webkit_gadget_offsets` and `libc_gadget_offsets`). -/

lemma pg_pop_rcx (wk libc : Nat) (s : Chain) :
    push_gadget (gadgets803 wk libc) s "pop rcx; ret" =
      .ok (push_value s (natU64 (wk + 0x1ac5f))) := rfl

lemma pg_neg_rax (wk libc : Nat) (s : Chain) :
    push_gadget (gadgets803 wk libc) s "neg rax; ret" =
      .ok (push_value s (natU64 (libc + 0xd3df3))) := rfl

lemma pg_pop_rsi (wk libc : Nat) (s : Chain) :
    push_gadget (gadgets803 wk libc) s "pop rsi; ret" =
      .ok (push_value s (natU64 (wk + 0x50878))) := rfl

lemma pg_adc_esi (wk libc : Nat) (s : Chain) :
    push_gadget (gadgets803 wk libc) s "adc esi, esi; ret" =
      .ok (push_value s (natU64 (wk + 0xbcfa29))) := rfl

lemma pg_pop_rdi (wk libc : Nat) (s : Chain) :
    push_gadget (gadgets803 wk libc) s "pop rdi; ret" =
      .ok (push_value s (natU64 (wk + 0x91afa))) := rfl

lemma pg_mov_rdi_rsi (wk libc : Nat) (s : Chain) :
    push_gadget (gadgets803 wk libc) s "mov qword ptr [rdi], rsi; ret" =
      .ok (push_value s (natU64 (wk + 0x18f010))) := rfl

lemma pg_pop_rax (wk libc : Nat) (s : Chain) :
    push_gadget (gadgets803 wk libc) s "pop rax; ret" =
      .ok (push_value s (natU64 (wk + 0x1ac7b))) := rfl

lemma pg_mov_rax_rax (wk libc : Nat) (s : Chain) :
    push_gadget (gadgets803 wk libc) s "mov rax, qword ptr [rax]; ret" =
      .ok (push_value s (natU64 (wk + 0x3734c))) := rfl

lemma pg_neg_and (wk libc : Nat) (s : Chain) :
    push_gadget (gadgets803 wk libc) s "neg rax; and rax, rcx; ret" =
      .ok (push_value s (natU64 (wk + 0x14c5ab4))) := rfl

lemma pg_mov_rdi_rax (wk libc : Nat) (s : Chain) :
    push_gadget (gadgets803 wk libc) s "mov qword ptr [rdi], rax; ret" =
      .ok (push_value s (natU64 (wk + 0x1433b))) := rfl

lemma pg_add_rcx_rsi (wk libc : Nat) (s : Chain) :
    push_gadget (gadgets803 wk libc) s "add rcx, rsi; and rdx, rcx; or rax, rdx; ret" =
      .ok (push_value s (natU64 (wk + 0x15a74c6))) := rfl

lemma pg_mov_rdx_rcx (wk libc : Nat) (s : Chain) :
    push_gadget (gadgets803 wk libc) s "mov rdx, rcx; ret" =
      .ok (push_value s (natU64 (wk + 0xf2c94d))) := rfl

lemma pg_add_rax_rdx (wk libc : Nat) (s : Chain) :
    push_gadget (gadgets803 wk libc) s "add rax, rdx; ret" =
      .ok (push_value s (natU64 (wk + 0xd26d4c))) := rfl

lemma pg_shl_rdx (wk libc : Nat) (s : Chain) :
    push_gadget (gadgets803 wk libc) s "mov rdx, rax; xor eax, eax; shl rdx, cl; ret" =
      .ok (push_value s (natU64 (libc + 0xcef39))) := rfl

lemma pg_pop_rdi_jmp (wk libc : Nat) (s : Chain) :
    push_gadget (gadgets803 wk libc) s "pop rdi; jmp qword ptr [rax + 0x1d]" =
      .ok (push_value s (natU64 (wk + 0x21f4f09))) := rfl

lemma pg_leave (wk libc : Nat) (s : Chain) :
    push_gadget (gadgets803 wk libc) s "leave; ret" =
      .ok (push_value s (natU64 (wk + 0x1ba53))) := rfl

lemma pg_pop_rdx (wk libc : Nat) (s : Chain) :
    push_gadget (gadgets803 wk libc) s "pop rdx; ret" =
      .ok (push_value s (natU64 (wk + 0x282ea2))) := rfl

lemma pg_pop_r8 (wk libc : Nat) (s : Chain) :
    push_gadget (gadgets803 wk libc) s "pop r8; ret" =
      .ok (push_value s (natU64 (wk + 0x3b4b3))) := rfl

lemma pg_pop_r9 (wk libc : Nat) (s : Chain) :
    push_gadget (gadgets803 wk libc) s "pop r9; ret" =
      .ok (push_value s (natU64 (wk + 0x10f372f))) := rfl

lemma gg_setjmp (wk libc : Nat) :
    get_gadget (gadgets803 wk libc) "setjmp" = .ok (natU64 (libc + 0x25904)) := rfl

lemma gg_longjmp (wk libc : Nat) :
    get_gadget (gadgets803 wk libc) "longjmp" = .ok (natU64 (libc + 0x29C38)) := rfl

lemma gg_ret (wk libc : Nat) :
    get_gadget (gadgets803 wk libc) "ret" = .ok (natU64 (wk + 0x32)) := rfl

/-! ## Helper lemmas: what a successful `start_branch` leaves behind -/

set_option maxHeartbeats 2000000 in
/-- A successful `start_branch` on the configured 8.03 gadget table leaves
the chain branching; the scaffold is 38 pushes (304 bytes): the delta slot
is the 14th slot (byte offset +104, holding the dummy 0), the rsp slot the
20th (+152), the rsp-capture point is right after the 22nd (+176), and the
16 scaffold pushes after the capture point make `branch_position` and
`rsp_position` equal 128, which is also the value patched into the rsp
slot before `start_branch` returns. -/
lemma start_branch_ok_fields {wk libc : Nat} {s0 s1 : Chain}
    (h : start_branch (gadgets803 wk libc) s0 = .ok s1) :
    s1.is_branch_ctx = true ∧
    s1.branch_position = some 128 ∧
    s1.rsp_position = some 128 ∧
    s1.delta_slot = some (s0.position + 104) ∧
    s1.rsp_slot = some (s0.position + 152) ∧
    s1.position = s0.position + 304 ∧
    read64 s1 (s0.position + 104) = 0 ∧
    read64 s1 (s0.position + 152) = 128 := by
  cases hb : s0.is_branch_ctx
  case true =>
    unfold start_branch at h
    rw [hb] at h
    simp at h
  case false =>
    unfold start_branch at h
    rw [hb] at h
    simp only [reduceIte, pg_pop_rcx, pg_neg_rax, pg_pop_rsi, pg_adc_esi, pg_pop_rdi,
      pg_mov_rdi_rsi, pg_pop_rax, pg_mov_rax_rax, pg_neg_and, pg_mov_rdi_rax,
      pg_add_rcx_rsi, pg_mov_rdx_rcx, pg_add_rax_rdx, pg_shl_rdx, pg_pop_rdi_jmp,
      ok_bind, pure_ok, push_constant, push_value_position, push_value_is_branch_ctx,
      push_value_branch_position, push_value_delta_slot, push_value_rsp_slot,
      push_value_rsp_position, push_value_stack_addr, push_value_flag_addr,
      push_value_jmp_target_addr, push_value_jmp_buf_p, push_value_retval_addr,
      Option.getD_some, hb, Bool.false_eq_true, Except.ok.injEq] at h
    subst h
    refine ⟨?_, ?_, ?_, ?_, ?_, ?_, ?_, ?_⟩
    · simp [write64]
    · simp [write64]
    · simp [write64]
    · simp [write64]
    · simp [write64]
    · simp [write64]
    · simp [write64, read64, lookupLog, toU64, natU64, U64, Nat.add_assoc,
        self_eq_add_right, add_right_inj]
    · simp [write64, read64, lookupLog, toU64, natU64, U64, Nat.add_assoc,
        self_eq_add_right, add_right_inj]

/-! ## Helper lemmas: arbitrary push sequences inside a branch context -/

/-- Every successful `apply_push` appends exactly one 8-byte slot at the
cursor. -/
lemma apply_push_ok {G : GadgetMap} {s t : Chain} {op : PushOp}
    (h : apply_push G s op = .ok t) : ∃ v, t = push_value s v := by
  cases op with
  | value v => exact ⟨v, by simpa [apply_push] using h.symm⟩
  | constant v => exact ⟨toU64 v, by simpa [apply_push, push_constant] using h.symm⟩
  | gadget n =>
    unfold apply_push push_gadget at h
    obtain ⟨a, _, h⟩ := bindE h
    exact ⟨a, by simpa using h.symm⟩

/-- N successful pushes issued while a branch context is active advance the
cursor and the `branch_position` counter by exactly `8 * N`, never touch the
recorded patch-back slots or `rsp_position`, and leave every byte below the
starting cursor unchanged. -/
lemma apply_pushes_ok {G : GadgetMap} {ops : List PushOp} :
    ∀ (s t : Chain) (bp : Nat), s.is_branch_ctx = true → s.branch_position = some bp →
    apply_pushes G s ops = .ok t →
    t.is_branch_ctx = true ∧
    t.branch_position = some (bp + 8 * ops.length) ∧
    t.rsp_position = s.rsp_position ∧
    t.delta_slot = s.delta_slot ∧
    t.rsp_slot = s.rsp_slot ∧
    t.position = s.position + 8 * ops.length ∧
    (∀ d, d < s.position → read64 t d = read64 s d) := by
  induction ops with
  | nil =>
    intro s t bp h1 h2 h3
    obtain rfl : s = t := by simpa [apply_pushes] using h3
    simp [h1, h2]
  | cons op rest ih =>
    intro s t bp h1 h2 h3
    unfold apply_pushes at h3
    obtain ⟨u, hu, h3⟩ := bindE h3
    obtain ⟨v, rfl⟩ := apply_push_ok hu
    obtain ⟨k1, k2, k3, k4, k5, k6, k7⟩ :=
      ih (push_value s v) t (bp + 8) (by simp [h1]) (by simp [h1, h2]) h3
    refine ⟨k1, ?_, by simpa using k3, by simpa using k4, by simpa using k5, ?_, ?_⟩
    · rw [k2]
      congr 1
      simp [List.length_cons]
      ring
    · rw [k6]
      simp [List.length_cons]
      ring
    · intro d hd
      rw [k7 d (by simp; omega), read64_push_value_lt s v d hd]

/-- A successful `end_branch` requires an active branch context; it patches
the delta slot with `branch_position - rsp_position` and clears the branch
context, touching nothing else. -/
lemma end_branch_ok {s t : Chain} (h : end_branch s = .ok t) :
    s.is_branch_ctx = true ∧
    t = clean_branch_ctx (write64 s (s.delta_slot.getD 0)
          (toU64 ((s.branch_position.getD 0 : Int) - (s.rsp_position.getD 0 : Int)))) := by
  unfold end_branch at h
  cases hb : s.is_branch_ctx
  case false =>
    rw [hb] at h
    simp at h
  case true =>
    rw [hb] at h
    simp only [Bool.not_true, Bool.false_eq_true, reduceIte, Except.ok.injEq] at h
    exact ⟨rfl, h.symm⟩

/-! ## Claims about the conditional-branch protocol -/

/-- Claim C1: for every chain, if N push operations are issued strictly
between `start_branch()` and `end_branch()` (each advancing the cursor by 8
bytes), then `end_branch()` patches the delta slot of the branch context with
exactly `N * 8`, i.e. the byte-length of the conditional region, excluding
the scaffold bytes emitted by `start_branch()` itself. -/
theorem claim_C1_branch_delta (wk libc : Nat) (s0 s1 s2 s3 : Chain) (ops : List PushOp)
    (h1 : start_branch (gadgets803 wk libc) s0 = .ok s1)
    (h2 : apply_pushes (gadgets803 wk libc) s1 ops = .ok s2)
    (h3 : end_branch s2 = .ok s3)
    (hN : 8 * ops.length < U64) :
    read64 s3 (s1.delta_slot.getD 0) = 8 * ops.length := by
  obtain ⟨hc, hbp, hrp, hds, _, _, _, _⟩ := start_branch_ok_fields h1
  obtain ⟨_, kbp, krp, kds, _, _, _⟩ := apply_pushes_ok s1 s2 128 hc hbp h2
  obtain ⟨_, ht⟩ := end_branch_ok h3
  subst ht
  rw [read64_clean_branch_ctx, kds, hds, kbp, krp, hrp]
  simp only [Option.getD_some, read64_write64_self]
  simp only [natU64, toU64, U64] at hN ⊢
  omega

/-- Witness for C1: on a fresh concrete chain, one push issued between the
branch delimiters makes `end_branch()` patch the delta slot with 8. -/
theorem claim_C1_branch_delta_witness :
    read64 ebW (sbW.delta_slot.getD 0) = 8 * [PushOp.constant 7].length :=
  claim_C1_branch_delta 1 2 chain0 sbW apW ebW [PushOp.constant 7] rfl rfl rfl
    (by norm_num [U64])

/-- Claim C9: `start_branch()` reserves a delta slot holding a dummy value
(0) that remains unpatched through any sequence of pushes until
`end_branch()`, and fills the rsp slot before returning with the fake-stack
position counter captured at branch start (`rsp_position`, 128 = the byte
length of the scaffold tail after the capture point). -/
theorem claim_C9_slots (wk libc : Nat) (s0 s1 s2 : Chain) (ops : List PushOp)
    (h1 : start_branch (gadgets803 wk libc) s0 = .ok s1)
    (h2 : apply_pushes (gadgets803 wk libc) s1 ops = .ok s2) :
    s1.delta_slot = some (s0.position + 104) ∧
    read64 s1 (s0.position + 104) = 0 ∧
    read64 s2 (s0.position + 104) = 0 ∧
    s1.rsp_slot = some (s0.position + 152) ∧
    s1.rsp_position = some 128 ∧
    read64 s1 (s0.position + 152) = 128 := by
  obtain ⟨hc, hbp, hrp, hds, hrs, hpos, hr1, hr2⟩ := start_branch_ok_fields h1
  obtain ⟨_, _, _, _, _, _, kread⟩ := apply_pushes_ok s1 s2 128 hc hbp h2
  refine ⟨hds, hr1, ?_, hrs, hrp, hr2⟩
  rw [kread _ (by omega)]
  exact hr1

/-- Witness for C9 at a concrete trace. -/
theorem claim_C9_slots_witness :
    sbW.delta_slot = some (chain0.position + 104) ∧
    read64 sbW (chain0.position + 104) = 0 ∧
    read64 apW9 (chain0.position + 104) = 0 ∧
    sbW.rsp_slot = some (chain0.position + 152) ∧
    sbW.rsp_position = some 128 ∧
    read64 sbW (chain0.position + 152) = 128 :=
  claim_C9_slots 1 2 chain0 sbW apW9 [PushOp.value 5] rfl rfl

/-! ## Helper lemmas: the run guards -/

lemma check_stale_ok {s : Chain} {u : Unit} (h : check_stale s = .ok u) :
    s.stale = false := by
  unfold check_stale at h
  cases hs : s.stale
  · rfl
  · rw [hs] at h; simp at h

lemma check_is_empty_ok {s : Chain} {u : Unit} (h : check_is_empty s = .ok u) :
    s.position ≠ 0 := by
  unfold check_is_empty at h
  by_cases hp : s.position = 0
  · rw [if_pos hp] at h; simp at h
  · exact hp

lemma check_is_branching_ok {s : Chain} {u : Unit} (h : check_is_branching s = .ok u) :
    s.is_branch_ctx = false := by
  unfold check_is_branching at h
  cases hb : s.is_branch_ctx
  · rfl
  · rw [hb] at h; simp at h

lemma run803_ok {V O : Nat} {s : Chain} {r : Chain × RunEffect}
    (h : Chain803.run V O s = .ok r) :
    s.stale = false ∧ s.position ≠ 0 ∧ s.is_branch_ctx = false ∧
    r = ({ s with stale := true }, ⟨V, O⟩) := by
  unfold Chain803.run at h
  obtain ⟨u1, h1, h⟩ := bindE h
  obtain ⟨u2, h2, h⟩ := bindE h
  obtain ⟨u3, h3, h⟩ := bindE h
  exact ⟨check_stale_ok h1, check_is_empty_ok h2, check_is_branching_ok h3,
    by simpa using h.symm⟩

lemma run850_ok {slot : Nat} {s : Chain} {r : Chain × RunEffect}
    (h : Chain850.run slot s = .ok r) :
    s.stale = false ∧ s.position ≠ 0 ∧ s.is_branch_ctx = false ∧
    r = ({ s with stale := true }, ⟨slot, slot⟩) := by
  unfold Chain850.run at h
  obtain ⟨u1, h1, h⟩ := bindE h
  obtain ⟨u2, h2, h⟩ := bindE h
  obtain ⟨u3, h3, h⟩ := bindE h
  exact ⟨check_stale_ok h1, check_is_empty_ok h2, check_is_branching_ok h3,
    by simpa using h.symm⟩

lemma run803_runs {V O : Nat} {s : Chain} (hs : s.stale = false) (hp : s.position ≠ 0)
    (hb : s.is_branch_ctx = false) :
    Chain803.run V O s = .ok ({ s with stale := true }, ⟨V, O⟩) := by
  unfold Chain803.run check_stale check_is_empty check_is_branching
  rw [hs, hb, if_neg hp]
  rfl

lemma run803_stale {V O : Nat} {s : Chain} (hs : s.stale = true) :
    Chain803.run V O s = .error .staleChain := by
  unfold Chain803.run check_stale
  rw [hs]
  rfl

lemma run850_stale {slot : Nat} {s : Chain} (hs : s.stale = true) :
    Chain850.run slot s = .error .staleChain := by
  unfold Chain850.run check_stale
  rw [hs]
  rfl

lemma run803_empty {V O : Nat} {s : Chain} (hs : s.stale = false)
    (hp : s.position = 0) : Chain803.run V O s = .error .emptyChain := by
  unfold Chain803.run check_stale check_is_empty
  rw [hs, if_pos hp]
  rfl

lemma run803_branching {V O : Nat} {s : Chain} (hs : s.stale = false)
    (hp : s.position ≠ 0) (hb : s.is_branch_ctx = true) :
    Chain803.run V O s = .error .invalidBranchState := by
  unfold Chain803.run check_stale check_is_empty check_is_branching
  rw [hs, hb, if_neg hp]
  rfl

/-! ## Claims about the run lifecycle -/

/-- Claim C2: `run()` checks, before performing any hijack side effect, that
the chain is not stale, not empty, and not mid-branch (a successful run
certifies all three preconditions, and each violated precondition produces
the corresponding error with no hijack effect — an error carries no resulting
state or slot effect in this model), and a successful `run()` leaves the chain
stale, so calling `run()` twice without an intervening `clean()` fails fast.
Shown for both chain variants (8.03 and 8.50) where the claim names both. -/
theorem claim_C2_run_guards (V O slot w1 w2 w3 : Nat) (s t u1 u2 u3 s1 t1 : Chain)
    (e1 e2 : RunEffect)
    (h803 : Chain803.run V O s = .ok (s1, e1))
    (h850 : Chain850.run slot t = .ok (t1, e2))
    (hu1 : u1.stale = true)
    (hu2 : u2.stale = false) (hu2p : u2.position = 0)
    (hu3 : u3.stale = false) (hu3p : u3.position ≠ 0) (hu3b : u3.is_branch_ctx = true) :
    (s.stale = false ∧ s.position ≠ 0 ∧ s.is_branch_ctx = false ∧ s1.stale = true ∧
      Chain803.run V O s1 = .error .staleChain) ∧
    (t.stale = false ∧ t.position ≠ 0 ∧ t.is_branch_ctx = false ∧ t1.stale = true ∧
      Chain850.run slot t1 = .error .staleChain) ∧
    Chain803.run V O u1 = .error .staleChain ∧
    Chain803.run V O u2 = .error .emptyChain ∧
    Chain803.run w1 w2 u3 = .error .invalidBranchState ∧
    Chain850.run w3 u1 = .error .staleChain := by
  obtain ⟨a1, a2, a3, a4⟩ := run803_ok h803
  obtain ⟨b1, b2, b3, b4⟩ := run850_ok h850
  rw [Prod.mk.injEq] at a4 b4
  have hs1 : s1.stale = true := by rw [a4.1]
  have ht1 : t1.stale = true := by rw [b4.1]
  exact ⟨⟨a1, a2, a3, hs1, run803_stale hs1⟩, ⟨b1, b2, b3, ht1, run850_stale ht1⟩,
    run803_stale hu1, run803_empty hu2 hu2p, run803_branching hu3 hu3p hu3b,
    run850_stale hu1⟩

/-- Witness for C2 at concrete chains: a one-push chain runs once and is then
stale; a stale chain, an empty chain and a mid-branch chain each fail with
the corresponding error. -/
theorem claim_C2_run_guards_witness :
    ((push_value chain0 7).stale = false ∧ (push_value chain0 7).position ≠ 0 ∧
      (push_value chain0 7).is_branch_ctx = false ∧
      ({ push_value chain0 7 with stale := true } : Chain).stale = true ∧
      Chain803.run 1 2 { push_value chain0 7 with stale := true } = .error .staleChain) ∧
    ((push_value chain0 9).stale = false ∧ (push_value chain0 9).position ≠ 0 ∧
      (push_value chain0 9).is_branch_ctx = false ∧
      ({ push_value chain0 9 with stale := true } : Chain).stale = true ∧
      Chain850.run 5 { push_value chain0 9 with stale := true } = .error .staleChain) ∧
    Chain803.run 1 2 { chain0 with stale := true } = .error .staleChain ∧
    Chain803.run 1 2 chain0 = .error .emptyChain ∧
    Chain803.run 3 4 (push_value { chain0 with is_branch_ctx := true } 3) =
      .error .invalidBranchState ∧
    Chain850.run 6 { chain0 with stale := true } = .error .staleChain :=
  claim_C2_run_guards 1 2 5 3 4 6 (push_value chain0 7) (push_value chain0 9)
    { chain0 with stale := true } chain0 (push_value { chain0 with is_branch_ctx := true } 3)
    { push_value chain0 7 with stale := true } { push_value chain0 9 with stale := true }
    ⟨1, 2⟩ ⟨5, 5⟩ rfl rfl rfl rfl rfl (by decide) (by decide) rfl

/-- Counterexample to claim C3: the 8.50 chain does not restore the hijacked
slot.  Concretely: with the five 8.50 JOP gadgets resolved (`G850test`) and
the `m_function` slot of the cloned executable holding `0x9999` before the
hijack, construction overwrites the slot with the `jop1` gadget address
`0x101`, and a successful `run()` leaves the slot at `0x101` (its
`RunEffect.final_slot`), not at the pre-hijack value `0x9999`: the overwritten
slot is *not* restored to its original value after control returns. -/
theorem claim_C3_counterexample :
    construct850 G850test chain0 0x9999 = .ok (chain0, 0x101) ∧
    Chain850.run 0x101 (push_value chain0 0) =
      .ok ({ push_value chain0 0 with stale := true }, ⟨0x101, 0x101⟩) ∧
    (0x101 : Nat) ≠ 0x9999 := by
  exact ⟨rfl, rfl, by decide⟩

/-- Claim C3 (amended): for every successful `run()`, the 8.03 chain restores
the overwritten vtable slot to the constructor-captured original value `O`
immediately after control returns through the epilogue (its hijack effect is
`V` during the run and `O` after); the 8.50 chain, by contrast, installs its
hijack once at construction into a cloned executable's `m_function` slot and
`run()` never touches that slot — it holds the same (hijacked) value before
and after the run. -/
theorem claim_C3_amended (V O slot : Nat) (s t s1 t1 : Chain) (e1 e2 : RunEffect)
    (h803 : Chain803.run V O s = .ok (s1, e1))
    (h850 : Chain850.run slot t = .ok (t1, e2)) :
    e1.hijacked_slot = V ∧ e1.final_slot = O ∧
    e2.hijacked_slot = slot ∧ e2.final_slot = slot := by
  obtain ⟨_, _, _, a4⟩ := run803_ok h803
  obtain ⟨_, _, _, b4⟩ := run850_ok h850
  rw [Prod.mk.injEq] at a4 b4
  rw [a4.2, b4.2]
  exact ⟨rfl, rfl, rfl, rfl⟩

/-- Witness for the amended C3 at concrete runs of both variants. -/
theorem claim_C3_amended_witness :
    (RunEffect.mk 1 2).hijacked_slot = 1 ∧ (RunEffect.mk 1 2).final_slot = 2 ∧
    (RunEffect.mk 5 5).hijacked_slot = 5 ∧ (RunEffect.mk 5 5).final_slot = 5 :=
  claim_C3_amended 1 2 5 (push_value chain0 7) (push_value chain0 9)
    { push_value chain0 7 with stale := true } { push_value chain0 9 with stale := true }
    ⟨1, 2⟩ ⟨5, 5⟩ rfl rfl

/-- Claim C4: `start_branch()` called while a branch context is already
active fails with `InvalidBranchState`, and `end_branch()` called while no
branch context is active fails with `InvalidBranchState`; in both cases the
guard fires before anything is pushed or patched, so the chain is unchanged
(in this model an error result carries no mutated state at all).  Hence at
most one branch context is ever active and nesting is impossible. -/
theorem claim_C4_branch_guard (G : GadgetMap) (s t : Chain)
    (hs : s.is_branch_ctx = true) (ht : t.is_branch_ctx = false) :
    start_branch G s = .error .invalidBranchState ∧
    end_branch t = .error .invalidBranchState := by
  constructor
  · unfold start_branch
    rw [hs]
    rfl
  · unfold end_branch
    rw [ht]
    rfl

/-- Witness for C4 at concrete chains. -/
theorem claim_C4_branch_guard_witness :
    start_branch (gadgets803 1 2) { chain0 with is_branch_ctx := true } =
      .error .invalidBranchState ∧
    end_branch chain0 = .error .invalidBranchState :=
  claim_C4_branch_guard (gadgets803 1 2) { chain0 with is_branch_ctx := true } chain0 rfl rfl

/-! ## Helper lemmas: checkpoint/rollback -/

/-- A successful `push_save` starts from an invalid checkpoint and leaves a
valid one. -/
lemma push_save_ok {G : GadgetMap} {s t : Chain} (h : push_save G s = .ok t) :
    s.is_saved = false ∧ t.is_saved = true := by
  unfold push_save at h
  cases hs : s.is_saved
  case true =>
    rw [hs] at h
    simp at h
  case false =>
    rw [hs] at h
    simp only [Bool.false_eq_true, reduceIte] at h
    obtain ⟨a, _, h⟩ := bindE h
    obtain ⟨u, _, h⟩ := bindE h
    simp only [pure_ok, Except.ok.injEq] at h
    exact ⟨rfl, by rw [← h]⟩

set_option maxHeartbeats 1000000 in
/-- A successful `push_restore` (forced or not) always leaves `is_saved`
false: the final statement of the method clears it unconditionally. -/
lemma push_restore_ok_cleared {wk libc : Nat} {f : Bool} {s t : Chain}
    (h : push_restore (gadgets803 wk libc) s f = .ok t) : t.is_saved = false := by
  unfold push_restore at h
  cases hs : s.is_saved <;> cases f
  case false.false =>
    rw [hs] at h
    simp at h
  case false.true =>
    rw [hs] at h
    have hx := Except.ok.inj h
    rw [← hx]
  case true.false =>
    rw [hs] at h
    have hx := Except.ok.inj h
    rw [← hx]
  case true.true =>
    rw [hs] at h
    have hx := Except.ok.inj h
    rw [← hx]

/-! ## Claims about checkpoint/rollback -/

/-- Claim C5: `push_restore(force)` with `force` left false and `is_saved`
false fails with `NotSaved` before writing anything to the chain buffer (the
guard is the first statement of the method, and an error carries no mutated
state in this model); `push_restore(true)` never fails at build time, for
every chain state, on the configured gadget table (all gadgets it pushes
resolve). -/
theorem claim_C5_restore_guard (wk libc : Nat) (s t : Chain) (hs : s.is_saved = false) :
    push_restore (gadgets803 wk libc) s false = .error .notSaved ∧
    build_ok (push_restore (gadgets803 wk libc) t true) = true := by
  constructor
  · unfold push_restore
    rw [hs]
    rfl
  · unfold push_restore
    cases ht : t.is_saved <;> rfl

/-- Witness for C5 at a fresh concrete chain (no save pending). -/
theorem claim_C5_restore_guard_witness :
    push_restore (gadgets803 1 2) chain0 false = .error .notSaved ∧
    build_ok (push_restore (gadgets803 1 2) chain0 true) = true :=
  claim_C5_restore_guard 1 2 chain0 chain0 rfl

/-- Claim C6: `push_save()` fails with `AlreadySaved` whenever a prior
`push_save()` has not been followed by a `push_restore()` (the guard is the
first statement, so the rejected call mutates nothing in this model);
consequently at most one valid checkpoint exists at a time: a successful
save leaves `is_saved` true and a second save before a restore is
rejected. -/
theorem claim_C6_save_guard (wk libc : Nat) (s t t2 : Chain)
    (hs : s.is_saved = true)
    (ht : push_save (gadgets803 wk libc) t = .ok t2) :
    push_save (gadgets803 wk libc) s = .error .alreadySaved ∧
    t2.is_saved = true ∧
    push_save (gadgets803 wk libc) t2 = .error .alreadySaved := by
  have k := push_save_ok ht
  refine ⟨?_, k.2, ?_⟩
  · unfold push_save
    rw [hs]
    rfl
  · unfold push_save
    rw [k.2]
    rfl

/-- Witness for C6: a fresh chain saves once, and saving again (or saving on
any chain with a pending save) is rejected. -/
theorem claim_C6_save_guard_witness :
    push_save (gadgets803 1 2) { chain0 with is_saved := true } = .error .alreadySaved ∧
    psW.is_saved = true ∧
    push_save (gadgets803 1 2) psW = .error .alreadySaved :=
  claim_C6_save_guard 1 2 { chain0 with is_saved := true } chain0 psW rfl rfl

/-- Claim C10: after every successful `push_restore(force)`, for either value
of `force` and regardless of whether a save was pending, the chain's
`is_saved` flag is false; hence a `push_save()` immediately following any
successful `push_restore()` never fails with `AlreadySaved` — on the
configured table it succeeds outright. -/
theorem claim_C10_restore_clears (wk libc : Nat) (f : Bool) (s t : Chain)
    (h : push_restore (gadgets803 wk libc) s f = .ok t) :
    t.is_saved = false ∧ build_ok (push_save (gadgets803 wk libc) t) = true := by
  have k := push_restore_ok_cleared h
  refine ⟨k, ?_⟩
  unfold push_save
  rw [k]
  rfl

/-- Witness for C10: a forced restore on a fresh chain clears `is_saved` and
an immediate save succeeds. -/
theorem claim_C10_restore_clears_witness :
    prW.is_saved = false ∧ build_ok (push_save (gadgets803 1 2) prW) = true :=
  claim_C10_restore_clears 1 2 true chain0 prW rfl

/-! ## Helper lemmas: one-shot helpers -/

lemma arg_gadget_resolves (wk libc : Nat) {g : String} (h : g ∈ arg_gadgets) :
    ∃ a, get_gadget (gadgets803 wk libc) g = .ok a := by
  simp [arg_gadgets] at h
  rcases h with rfl | rfl | rfl | rfl | rfl | rfl <;> exact ⟨_, rfl⟩

/-- The argument-loading loop succeeds on the configured table whenever every
pair names one of the six argument-register gadgets, appending two slots per
argument and preserving the lifecycle flags. -/
lemma push_args_ok_concrete {wk libc : Nat} :
    ∀ (pairs : List (String × Nat)) (s : Chain), (∀ p ∈ pairs, p.1 ∈ arg_gadgets) →
    ∃ t, push_args (gadgets803 wk libc) s pairs = .ok t ∧
      t.stale = s.stale ∧ t.is_branch_ctx = s.is_branch_ctx ∧
      t.position = s.position + 16 * pairs.length := by
  intro pairs
  induction pairs with
  | nil =>
    intro s _
    exact ⟨s, rfl, rfl, rfl, by simp⟩
  | cons p rest ih =>
    obtain ⟨g, v⟩ := p
    intro s h
    obtain ⟨a, ha⟩ := arg_gadget_resolves wk libc (h (g, v) (by simp))
    have hpg : push_gadget (gadgets803 wk libc) s g = .ok (push_value s a) := by
      unfold push_gadget
      rw [ha]
      rfl
    obtain ⟨t, ht, h1, h2, h3⟩ :=
      ih (push_value (push_value s a) v) (fun q hq => h q (by simp [hq]))
    refine ⟨t, ?_, ?_, ?_, ?_⟩
    · show push_args _ s ((g, v) :: rest) = .ok t
      unfold push_args
      rw [hpg, ok_bind]
      exact ht
    · simpa using h1
    · simpa using h2
    · simp only [push_value_position] at h3
      rw [h3]
      simp [List.length_cons]
      ring

/-- `push_call` succeeds on the configured table for up to six arguments,
appending at least the target slot, and preserves the lifecycle flags. -/
lemma push_call_ok_concrete {wk libc : Nat} (s : Chain) (target : Nat) (args : List Nat)
    (ha : args.length ≤ 6) :
    ∃ t, push_call (gadgets803 wk libc) s target args = .ok t ∧
      t.stale = s.stale ∧ t.is_branch_ctx = s.is_branch_ctx ∧ t.position ≠ 0 := by
  obtain ⟨u, hu, h1, h2, h3⟩ := push_args_ok_concrete (arg_gadgets.zip args) s
    (fun p hp => (List.of_mem_zip hp).1)
  refine ⟨push_value u target, ?_, ?_, ?_, ?_⟩
  · unfold push_call
    rw [if_neg (by omega), hu, ok_bind]
    rfl
  · simp [h1]
  · simp [h2]
  · simp [push_value_position]

lemma push_get_retval_ok {wk libc : Nat} (s : Chain) :
    push_get_retval (gadgets803 wk libc) s =
      .ok (push_value (push_value (push_value s (natU64 (wk + 0x91afa))) s.retval_addr)
            (natU64 (wk + 0x1433b))) := by
  simp only [push_get_retval, pg_pop_rdi, ok_bind, push_value_retval_addr, pg_mov_rdi_rax]

lemma push_end_ok {wk libc : Nat} (s : Chain) :
    push_end (gadgets803 wk libc) s = .ok (push_value s (natU64 (wk + 0x1ba53))) := by
  simp only [push_end, pg_leave]

/-- The common tail of the one-shot helpers: `push_get_retval`, `push_end`,
`run`, `clean` — on a non-stale, non-branching chain it succeeds and leaves
the chain empty. -/
lemma oneshot_tail {wk libc V O : Nat} {u : Chain}
    (h1 : u.stale = false) (h2 : u.is_branch_ctx = false) :
    ((do
      let s ← push_get_retval (gadgets803 wk libc) u
      let s ← push_end (gadgets803 wk libc) s
      let (s, eff) ← Chain803.run V O s
      return (clean s, eff) : Except ChainError (Chain × RunEffect))).map
        (fun r => r.1.position) = .ok 0 := by
  simp only [push_get_retval_ok, ok_bind, push_end_ok]
  have k3 : Chain803.run V O
      (push_value (push_value (push_value (push_value u (natU64 (wk + 0x91afa)))
        u.retval_addr) (natU64 (wk + 0x1433b))) (natU64 (wk + 0x1ba53))) =
      .ok ({ push_value (push_value (push_value (push_value u (natU64 (wk + 0x91afa)))
        u.retval_addr) (natU64 (wk + 0x1433b))) (natU64 (wk + 0x1ba53)) with stale := true },
        ⟨V, O⟩) :=
    run803_runs (by simp [h1]) (by simp [push_value_position]) (by simp [h2])
  rw [k3]
  simp [Except.map, clean, ChainBase.clean, clean_branch_ctx]

/-- `call()` on an empty, non-stale, non-branching chain with at most six
arguments succeeds and leaves the chain empty again. -/
lemma call_ok_concrete {wk libc V O target : Nat} {t : Chain} {args : List Nat}
    (hstale : t.stale = false) (hbr : t.is_branch_ctx = false) (ht : t.position = 0)
    (ha : args.length ≤ 6) :
    (call (gadgets803 wk libc) V O t target args).map (fun r => r.1.position) = .ok 0 := by
  obtain ⟨u, hu, e1, e2, _⟩ := push_call_ok_concrete t target args ha
  unfold call
  rw [if_neg (by simp [ht]), hu]
  rw [ok_bind]
  exact oneshot_tail (by rw [e1, hstale]) (by rw [e2, hbr])

/-- `syscall()` on an empty, non-stale, non-branching chain with a known
syscall name and at most six arguments succeeds and leaves the chain empty
again. -/
lemma syscall_ok_concrete {wk libc V O num addr : Nat} {sys : SyscallMap} {name : String}
    {t : Chain} {args : List Nat}
    (hstale : t.stale = false) (hbr : t.is_branch_ctx = false) (ht : t.position = 0)
    (ha : args.length ≤ 6) (hn : sys_lookup sys name = some (num, addr)) :
    (syscall (gadgets803 wk libc) sys V O t name args).map (fun r => r.1.position) =
      .ok 0 := by
  obtain ⟨u, hu, e1, e2, _⟩ :=
    push_call_ok_concrete (push_value (push_value t (natU64 (wk + 0x1ac7b))) num) addr args ha
  unfold syscall
  rw [if_neg (by simp [ht])]
  have hps : push_syscall (gadgets803 wk libc) sys t name args = .ok u := by
    unfold push_syscall
    simp only [hn, pg_pop_rax, ok_bind]
    exact hu
  rw [hps, ok_bind]
  refine oneshot_tail (by rw [e1]; simp [hstale]) (by rw [e2]; simp [hbr])

/-! ## Claim about the one-shot helpers -/

/-- Claim C7: `call(target, args...)` and `syscall(name, args...)` invoked on
a chain with `position ≠ 0` fail with `NotEmpty` before any buffer mutation
(the guard is the first statement, and an error carries no mutated state in
this model); on a well-formed chain with `position = 0` each pushes the
call/syscall, then `push_get_retval()`, then `push_end()`, runs the chain and
finally `clean()`s it, succeeding and leaving the chain empty afterwards
(`WF` is the reachable-state invariant: an empty chain is neither stale nor
mid-branch). -/
theorem claim_C7_oneshot (wk libc V O target num addr : Nat) (sys : SyscallMap)
    (name : String) (s t : Chain) (args : List Nat)
    (hs : s.position ≠ 0)
    (hwf : WF t) (ht : t.position = 0)
    (ha : args.length ≤ 6)
    (hn : sys_lookup sys name = some (num, addr)) :
    call (gadgets803 wk libc) V O s target args = .error .notEmpty ∧
    syscall (gadgets803 wk libc) sys V O s name args = .error .notEmpty ∧
    (call (gadgets803 wk libc) V O t target args).map (fun r => r.1.position) = .ok 0 ∧
    (syscall (gadgets803 wk libc) sys V O t name args).map (fun r => r.1.position) =
      .ok 0 := by
  obtain ⟨hstale, hbr⟩ := hwf ht
  refine ⟨?_, ?_, ?_, ?_⟩
  · unfold call
    rw [if_pos hs]
  · unfold syscall
    rw [if_pos hs]
  · exact call_ok_concrete hstale hbr ht ha
  · exact syscall_ok_concrete hstale hbr ht ha hn

/-- Witness for C7: on a one-slot chain both helpers fail `NotEmpty`; on a
fresh empty chain `call(0x555, 3, 4)` and `syscall("getuid")` (syscall 24)
both succeed and leave the chain empty. -/
theorem claim_C7_oneshot_witness :
    call (gadgets803 1 2) 7 8 (push_value chain0 1) 0x555 [3, 4] = .error .notEmpty ∧
    syscall (gadgets803 1 2) [("getuid", 24, 0x999)] 7 8 (push_value chain0 1) "getuid"
      [3, 4] = .error .notEmpty ∧
    (call (gadgets803 1 2) 7 8 chain0 0x555 [3, 4]).map (fun r => r.1.position) = .ok 0 ∧
    (syscall (gadgets803 1 2) [("getuid", 24, 0x999)] 7 8 chain0 "getuid" [3, 4]).map
      (fun r => r.1.position) = .ok 0 :=
  claim_C7_oneshot 1 2 7 8 0x555 24 0x999 [("getuid", 24, 0x999)] "getuid"
    (push_value chain0 1) chain0 [3, 4] (by decide) (by decide) rfl (by decide) rfl

/-! ## Helper lemmas: gadget-table initialization -/

lemma mapGet_set_self (m : GadgetMap) (k : String) (v : Nat) :
    mapGet (mapSet m k v) k = some v := by
  simp [mapSet, mapGet]

lemma mapGet_set_ne (m : GadgetMap) (k k2 : String) (v : Nat) (h : k ≠ k2) :
    mapGet (mapSet m k v) k2 = mapGet m k2 := by
  simp [mapSet, mapGet, h]

lemma init_fold_cons (gm : GadgetMap) (p : String × Nat) (rest : List (String × Nat))
    (base : Nat) :
    init_gadget_map gm (p :: rest) base =
      init_gadget_map (mapSet gm p.1 (natU64 (base + p.2))) rest base := rfl

/-- Identifiers absent from the offset map are untouched by
`init_gadget_map`. -/
lemma init_not_mem (base : Nat) :
    ∀ (om : List (String × Nat)) (gm : GadgetMap) (k : String),
    k ∉ om.map Prod.fst → mapGet (init_gadget_map gm om base) k = mapGet gm k := by
  intro om
  induction om with
  | nil => intro gm k _; rfl
  | cons p rest ih =>
    intro gm k h
    rw [List.map_cons, List.mem_cons, not_or] at h
    rw [init_fold_cons, ih _ _ h.2, mapGet_set_ne _ _ _ _ (fun e => h.1 e.symm)]

/-- Every identifier of a duplicate-free offset map is resolved by
`init_gadget_map` to exactly `base + offset` (64-bit address addition). -/
lemma init_mem (base : Nat) :
    ∀ (om : List (String × Nat)) (gm : GadgetMap) (k : String) (off : Nat),
    (om.map Prod.fst).Nodup → (k, off) ∈ om →
    mapGet (init_gadget_map gm om base) k = some (natU64 (base + off)) := by
  intro om
  induction om with
  | nil => simp
  | cons p rest ih =>
    intro gm k off hnd hmem
    rw [List.map_cons, List.nodup_cons] at hnd
    rcases List.mem_cons.mp hmem with heq | hmem2
    · have hk : p.1 = k := by rw [← heq]
      have ho : p.2 = off := by rw [← heq]
      have hnot : k ∉ rest.map Prod.fst := by
        rw [← hk]
        exact hnd.1
      rw [init_fold_cons, init_not_mem base rest _ k hnot, ← hk, ← ho, mapGet_set_self]
    · rw [init_fold_cons]
      exact ih _ k off hnd.2 hmem2

/-! ## Claim about gadget-table initialization -/

/-- Claim C8: for every base address and every offset table (with the unique
string keys a JS `Map`/object literal always has), `init_gadget_map` maps
each configured identifier to exactly `base + offset` (as a 64-bit address,
the arithmetic of `Addr.add`) — so the table contains an entry for every
identifier of the offset map — and identifiers outside the offset map are
not resolved to anything else: they keep whatever binding the target map
already had.  The resulting table is a pure value in this model, so the
mapping cannot be re-resolved afterwards; in the source the maps are only
ever read after `init()`. -/
theorem claim_C8_gadget_map (base : Nat) (gm : GadgetMap) (om : List (String × Nat))
    (k k2 : String) (off : Nat)
    (hnd : (om.map Prod.fst).Nodup) (hmem : (k, off) ∈ om)
    (hk2 : k2 ∉ om.map Prod.fst) :
    mapGet (init_gadget_map gm om base) k = some (natU64 (base + off)) ∧
    mapGet (init_gadget_map gm om base) k2 = mapGet gm k2 :=
  ⟨init_mem base om gm k off hnd hmem, init_not_mem base om gm k2 hk2⟩

/-- Witness for C8 on a small concrete table. -/
theorem claim_C8_gadget_map_witness :
    mapGet (init_gadget_map [("x", 5)] [("a", 1), ("b", 2)] 0x1000) "b" =
      some (natU64 (0x1000 + 2)) ∧
    mapGet (init_gadget_map [("x", 5)] [("a", 1), ("b", 2)] 0x1000) "x" =
      mapGet [("x", 5)] "x" :=
  claim_C8_gadget_map 0x1000 [("x", 5)] [("a", 1), ("b", 2)] "b" "x" 2
    (by decide) (by decide) (by decide)

/-! ## The `WF` lifecycle invariant is preserved by every engine operation

These lemmas justify the `WF` hypothesis of the one-shot-helper claim: a
fresh chain is well-formed and every operation of the engine preserves
well-formedness, so every reachable chain state is `WF`. -/

lemma wf_chain0 : WF chain0 := by decide

lemma wf_clean (s : Chain) : WF (clean s) := fun _ => ⟨rfl, rfl⟩

lemma wf_push_value (s : Chain) (v : Nat) : WF (push_value s v) := by
  intro hp
  simp [push_value_position] at hp

lemma wf_apply_push {G : GadgetMap} {s t : Chain} {op : PushOp}
    (h : apply_push G s op = .ok t) : WF t := by
  obtain ⟨v, rfl⟩ := apply_push_ok h
  exact wf_push_value s v

lemma wf_start_branch {wk libc : Nat} {s0 s1 : Chain}
    (h : start_branch (gadgets803 wk libc) s0 = .ok s1) : WF s1 := by
  intro hp
  have hpos := (start_branch_ok_fields h).2.2.2.2.2.1
  rw [hpos] at hp
  simp at hp

lemma wf_end_branch {s t : Chain} (hwf : WF s) (h : end_branch s = .ok t) : WF t := by
  obtain ⟨hb, ht⟩ := end_branch_ok h
  subst ht
  intro hp
  simp only [clean_branch_ctx, write64] at hp ⊢
  have := (hwf hp).2
  rw [this] at hb
  exact absurd hb (by simp)

lemma wf_push_save {wk libc : Nat} {s t : Chain}
    (h : push_save (gadgets803 wk libc) s = .ok t) : WF t := by
  unfold push_save at h
  cases hs : s.is_saved
  case true =>
    rw [hs] at h
    simp at h
  case false =>
    rw [hs] at h
    have hx := Except.ok.inj h
    rw [← hx]
    intro hp
    simp [push_value_position] at hp

lemma push_call_one {wk libc : Nat} (s : Chain) (target a0 : Nat) :
    push_call (gadgets803 wk libc) s target [a0] =
      .ok (push_value (push_value (push_value s (natU64 (wk + 0x91afa))) a0) target) := by
  simp only [push_call, push_args, arg_gadgets, List.zip_cons_cons, List.zip_nil_right,
    List.length_cons, List.length_nil, pg_pop_rdi, ok_bind, pure_ok, reduceIte,
    Nat.reduceAdd, gt_iff_lt, Nat.lt_irrefl]
  norm_num

lemma wf_push_restore {wk libc : Nat} {f : Bool} {s t : Chain}
    (h : push_restore (gadgets803 wk libc) s f = .ok t) : WF t := by
  unfold push_restore at h
  by_cases hg : (!s.is_saved && !f) = true
  · rw [if_pos hg] at h
    simp at h
  · rw [if_neg hg] at h
    simp only [pg_pop_rax, pg_pop_rdi, pg_mov_rdi_rax, gg_ret, gg_longjmp, push_call_one,
      ok_bind, pure_ok, push_constant, push_value_position, push_value_jmp_buf_p,
      push_value_stack_addr, Except.ok.injEq] at h
    rw [← h]
    intro hp
    exfalso
    simp only [write64, push_value_position] at hp
    omega

lemma wf_run803 {V O : Nat} {s : Chain} {r : Chain × RunEffect}
    (h : Chain803.run V O s = .ok r) : WF r.1 := by
  obtain ⟨_, hp, _, hr⟩ := run803_ok h
  rw [hr]
  intro h0
  exact absurd h0 hp

lemma wf_run850 {slot : Nat} {s : Chain} {r : Chain × RunEffect}
    (h : Chain850.run slot s = .ok r) : WF r.1 := by
  obtain ⟨_, hp, _, hr⟩ := run850_ok h
  rw [hr]
  intro h0
  exact absurd h0 hp

lemma wf_call {G : GadgetMap} {V O target : Nat} {s : Chain} {args : List Nat}
    {r : Chain × RunEffect} (h : call G V O s target args = .ok r) : WF r.1 := by
  unfold call at h
  by_cases hp : s.position ≠ 0
  · rw [if_pos hp] at h
    simp at h
  · rw [if_neg hp] at h
    obtain ⟨u1, _, h⟩ := bindE h
    obtain ⟨u2, _, h⟩ := bindE h
    obtain ⟨u3, _, h⟩ := bindE h
    obtain ⟨u4, _, h⟩ := bindE h
    obtain ⟨c, eff⟩ := u4
    simp only [pure_ok, Except.ok.injEq] at h
    rw [← h]
    exact wf_clean c

lemma wf_syscall {G : GadgetMap} {sys : SyscallMap} {V O : Nat} {name : String}
    {s : Chain} {args : List Nat} {r : Chain × RunEffect}
    (h : syscall G sys V O s name args = .ok r) : WF r.1 := by
  unfold syscall at h
  by_cases hp : s.position ≠ 0
  · rw [if_pos hp] at h
    simp at h
  · rw [if_neg hp] at h
    obtain ⟨u1, _, h⟩ := bindE h
    obtain ⟨u2, _, h⟩ := bindE h
    obtain ⟨u3, _, h⟩ := bindE h
    obtain ⟨u4, _, h⟩ := bindE h
    obtain ⟨c, eff⟩ := u4
    simp only [pure_ok, Except.ok.injEq] at h
    rw [← h]
    exact wf_clean c
